import Mathlib

/-!
Shallow embedding of the M-Pesa STK push service (`src/main.py`) and proofs
about its transaction-lifecycle logic.

Modelling conventions:
* The Firestore collection `mpesa_transactions` is modelled as an association
  list `Store` keyed by document id.  Firestore's `document(id).set` is
  `Store.set` (create or replace), and `document(id).update` is
  `Store.update?`, which fails (returns `none`) when the document does not
  exist, exactly as the Firestore client raises `NotFound`.
* Python exceptions are modelled with `Except PyExc`; the `try/except`
  chains of the handlers become explicit wrapping functions.  `str(e)` for a
  FastAPI/starlette `HTTPException` renders as `"<code>: <detail>"`.
* JSON scalar values appearing in callback metadata are `MVal` (Python
  `int`, `float`, `str`).  Python floats are modelled exactly by `Rat`
  (no arithmetic beyond conversion is performed on them); `float(...)`
  applied to a string is modelled for integer-shaped strings and fails
  (raises) otherwise.
* `SERVER_TIMESTAMP` sentinels are modelled by an explicit `now : Nat`
  argument threaded into each handler.
* Python's `str.isdigit` is modelled by ASCII `Char.isDigit` (the service
  only ever deals in ASCII digit strings).
-/

/-- A JSON/Python scalar value carried in callback metadata. -/
inductive MVal where
  | int : Int → MVal
  | float : Rat → MVal
  | str : String → MVal
deriving DecidableEq

/-- Python `int(q)` for a float `q`: truncation toward zero. -/
def ratTrunc (q : Rat) : Int :=
  if 0 ≤ q then q.floor else q.ceil

/-- Python `float(v)`.  Fails (exception, `none`) on a non-numeric string;
string parsing is modelled for integer-shaped strings. -/
def pyFloatOfVal : MVal → Option Rat
  | MVal.int n => some ((n : Int) : Rat)
  | MVal.float q => some q
  | MVal.str s => (s.toInt?).map (fun n => ((n : Int) : Rat))

/-- Rendering of a float by Python `str`; only the integral case is exercised
by this code base, non-integral floats are rendered as `num/den`. -/
def pyFloatRepr (q : Rat) : String :=
  if q.den = 1 then toString q.num ++ ".0" else toString q

/-- Python `str(v)`. -/
def pyStrOfVal : MVal → String
  | MVal.int n => toString n
  | MVal.float q => pyFloatRepr q
  | MVal.str s => s

/-- The phone-number coercion of the callback handler:
`str(int(v))` when `isinstance(v, (int, float))`, else `str(v)`. -/
def pyPhoneStr : MVal → String
  | MVal.int n => toString n
  | MVal.float q => toString (ratTrunc q)
  | MVal.str s => s

/-- Python truthiness test used on optional id strings:
`None` and `""` are falsy. -/
def pyFalsyOptStr : Option String → Bool
  | none => true
  | some s => s == ""

/-- Python `str.isdigit`: nonempty and all digits. -/
def pyStrIsDigit (s : String) : Bool :=
  !s.data.isEmpty && s.data.all Char.isDigit

/-- One entry of `CallbackMetadata.Item`: `{Name, Value}`. -/
structure MetaItem where
  name : String
  value : MVal
deriving DecidableEq

/-- The `Body.stkCallback` envelope of a gateway callback.  All fields are
read with `.get(...)`, hence optional; a payload whose `Body` or
`stkCallback` key is missing is the all-`none` value (`.get` defaults the
missing level to `{}`).  `callbackMetadata = some items` models
`'CallbackMetadata' in stkCallback` with `Item` list `items`
(`.get('Item', [])` makes a missing `Item` the empty list). -/
structure StkCallback where
  checkoutRequestID : Option String := none
  resultCode : Option Int := none
  resultDesc : Option String := none
  callbackMetadata : Option (List MetaItem) := none
deriving DecidableEq

/-- A document of the `mpesa_transactions` collection.  `Option` fields are
`none` when the key is absent from the document (or stored as JSON null,
which this code never distinguishes from absent on read). -/
structure Transaction where
  phone_number : String := ""
  amount : Int := 0
  checkout_request_id : String := ""
  status : String := "pending"
  merchant_request_id : Option String := none
  account_reference : Option String := none
  transaction_desc : Option String := none
  callback_received : Bool := false
  result_code : Option Int := none
  result_description : Option String := none
  confirmed_amount : Option Rat := none
  mpesa_receipt_number : Option String := none
  transaction_date : Option String := none
  confirmed_phone_number : Option String := none
  query_result_code : Option Int := none
  query_result_description : Option String := none
  timestamp : Option Nat := none
  callback_timestamp : Option Nat := none
  last_queried : Option Nat := none
  raw_callback : Option StkCallback := none
deriving DecidableEq

/-- The Firestore collection, keyed by `checkout_request_id`. -/
abbrev Store := List (String × Transaction)

/-- Point lookup: `document(k).get()`. -/
def Store.get? : Store → String → Option Transaction
  | [], _ => none
  | (k1, t) :: r, k => if k1 = k then some t else Store.get? r k

/-- `document(k).set(t)`: create or replace. -/
def Store.set : Store → String → Transaction → Store
  | [], k, t => [(k, t)]
  | (k1, t1) :: r, k, t => if k1 = k then (k, t) :: r else (k1, t1) :: Store.set r k t

/-- `document(k).update(...)`: partial update of an existing document;
fails (Firestore `NotFound`) when the document is absent. -/
def Store.update? : Store → String → (Transaction → Transaction) → Option Store
  | [], _, _ => none
  | (k1, t) :: r, k, f =>
    if k1 = k then some ((k1, f t) :: r)
    else (Store.update? r k f).map (fun r2 => (k1, t) :: r2)

/-- Field-level merge semantics of a Firestore `update` dictionary: a field
present in the update (`some v`) replaces the stored field, an absent field
leaves it unchanged. -/
def mergeOpt {α : Type} : Option α → Option α → Option α
  | some v, _ => some v
  | none, old => old

/-- The acknowledgment body returned to the gateway by the webhook. -/
structure Ack where
  ResultCode : Int
  ResultDesc : String
deriving DecidableEq

/-- The `transaction_update` dictionary computed by the callback handler.
`result_code`/`result_description` hold the (possibly null) payload values
and are always written; `status` is always written; the metadata fields are
written only when `some`. -/
structure CallbackUpdate where
  result_code : Option Int
  result_description : Option String
  status : String
  confirmed_amount : Option Rat := none
  mpesa_receipt_number : Option String := none
  transaction_date : Option String := none
  confirmed_phone_number : Option String := none
deriving DecidableEq

/-- The failure-status mapping of the callback handler
(`main.py` lines 298-307): note that it has no case for `1031`. -/
def callbackFailStatus (rc : Option Int) : String :=
  if rc = some 1032 then "cancelled"
  else if rc = some 1037 then "expired"
  else if rc = some 1 then "insufficient_funds"
  else "failed"

/-- Processing of one metadata item by the extraction loop
(`main.py` lines 280-297).  `none` models the `ValueError` raised by
`float(...)` on a non-numeric `Amount`. -/
def applyMetaItem (u : CallbackUpdate) (it : MetaItem) : Option CallbackUpdate :=
  if it.name = "Amount" then
    (pyFloatOfVal it.value).map (fun q => { u with confirmed_amount := some q })
  else if it.name = "MpesaReceiptNumber" then
    some { u with mpesa_receipt_number := some (pyStrOfVal it.value) }
  else if it.name = "TransactionDate" then
    some { u with transaction_date := some (pyStrOfVal it.value) }
  else if it.name = "PhoneNumber" then
    some { u with confirmed_phone_number := some (pyPhoneStr it.value) }
  else
    some u

/-- The `transaction_update` dictionary computed from a callback payload
(`main.py` lines 262-307). -/
def buildCallbackUpdate (cb : StkCallback) : Option CallbackUpdate :=
  let base : CallbackUpdate :=
    { result_code := cb.resultCode, result_description := cb.resultDesc,
      status := "completed" }
  if cb.resultCode = some 0 then
    match cb.callbackMetadata with
    | none => some base
    | some items => items.foldlM applyMetaItem base
  else
    some { base with status := callbackFailStatus cb.resultCode }

/-- Application of the `transaction_update` dictionary to a stored document
(Firestore field-merge), together with the fields the handler always writes:
`callback_received`, `callback_timestamp` and `raw_callback`. -/
def applyCallbackUpdate (t : Transaction) (u : CallbackUpdate) (cb : StkCallback)
    (now : Nat) : Transaction :=
  { t with
    result_code := u.result_code
    result_description := u.result_description
    callback_received := true
    callback_timestamp := some now
    raw_callback := some cb
    status := u.status
    confirmed_amount := mergeOpt u.confirmed_amount t.confirmed_amount
    mpesa_receipt_number := mergeOpt u.mpesa_receipt_number t.mpesa_receipt_number
    transaction_date := mergeOpt u.transaction_date t.transaction_date
    confirmed_phone_number := mergeOpt u.confirmed_phone_number t.confirmed_phone_number }

/-- The `POST /mpesa-callback` handler (`main.py` lines 240-326).
Total: every exception of the body is caught and turned into the
`ResultCode = 1` acknowledgment, leaving the store untouched. -/
def mpesa_callback (cb : StkCallback) (store : Store) (now : Nat) : Ack × Store :=
  match cb.checkoutRequestID with
  | none => (⟨1, "Invalid callback data"⟩, store)
  | some id =>
    if id = "" then (⟨1, "Invalid callback data"⟩, store)
    else
      match buildCallbackUpdate cb with
      | none => (⟨1, "Callback processing failed"⟩, store)
      | some u =>
        match Store.update? store id (fun t => applyCallbackUpdate t u cb now) with
        | none => (⟨1, "Callback processing failed"⟩, store)
        | some store2 => (⟨0, "Callback processed successfully"⟩, store2)

/-- A Python exception escaping a handler body: a FastAPI `HTTPException`
raised inside the `try`, a `requests` `RequestException`, or any other
exception.  `str(e)` is `pyExcStr`. -/
inductive PyExc where
  | http (code : Nat) (detail : String)
  | reqExc (msg : String)
  | other (msg : String)
deriving DecidableEq

/-- Python `str(e)`; for a starlette `HTTPException` this is
`"<status_code>: <detail>"`. -/
def pyExcStr : PyExc → String
  | PyExc.http c d => toString c ++ ": " ++ d
  | PyExc.reqExc m => m
  | PyExc.other m => m

/-- An `APIResponse`-or-`HTTPException` outcome of a FastAPI handler:
`ok message data` is `APIResponse(success=True, message, data)`,
`httpError code detail` is an `HTTPException` reaching the client. -/
inductive HRes (α : Type) where
  | ok (message : String) (data : α)
  | httpError (code : Nat) (detail : String)
deriving DecidableEq

/-- The `data` dictionary of a check-status response (superset of the keys
of both the database branch and the query branch). -/
structure CheckData where
  checkout_request_id : String
  status : Option String := none
  result_code : Option Int := none
  result_description : Option String := none
  receipt_number : Option String := none
  amount : Option Rat := none
  phone_number : Option String := none
  transaction_date : Option String := none
deriving DecidableEq

/-- What the status-query path of `check_transaction_status` observes of the
outside world: the token fetch failing (an `HTTPException(500, ...)` from
`get_access_token`), the query POST failing with a `RequestException`, or a
reply JSON carrying `ResultCode`/`ResultDesc` (each possibly absent). -/
inductive QueryGateway where
  | tokenError (msg : String)
  | netError (msg : String)
  | reply (resultCode : Option Int) (resultDesc : Option String)
deriving DecidableEq

/-- The result-code mapping of the status-query path
(`main.py` lines 408-419); unlike the callback path it maps `1031` to
`cancelled`.  A missing code falls through to `failed`. -/
def queryCodeToStatus (rc : Option Int) : String :=
  if rc = some 0 then "completed"
  else if rc = some 1032 then "cancelled"
  else if rc = some 1037 then "expired"
  else if rc = some 1031 then "cancelled"
  else if rc = some 1 then "insufficient_funds"
  else "failed"

/-- The `status_update` dictionary persisted by the status-query path
(`main.py` lines 401-422), applied to the stored document. -/
def queryUpdate (rc : Option Int) (rd : Option String) (now : Nat)
    (u : Transaction) : Transaction :=
  { u with
    query_result_code := rc
    query_result_description := rd
    last_queried := some now
    status := queryCodeToStatus rc }

/-- The response `data` of the database branch of `check_transaction_status`
(`main.py` lines 348-361): `.get` with fall-back defaults for amount and
phone number. -/
def dbCheckData (reqId : String) (t : Transaction) : CheckData :=
  { checkout_request_id := reqId
    status := some t.status
    result_code := t.result_code
    result_description := t.result_description
    receipt_number := t.mpesa_receipt_number
    amount := mergeOpt t.confirmed_amount (some ((t.amount : Int) : Rat))
    phone_number := mergeOpt t.confirmed_phone_number (some t.phone_number)
    transaction_date := t.transaction_date }

/-- The response `data` of the query branch of `check_transaction_status`
(`main.py` lines 424-435). -/
def queryCheckData (reqId : String) (st : String) (rc : Option Int)
    (rd : Option String) (t : Transaction) : CheckData :=
  { checkout_request_id := reqId
    status := some st
    result_code := rc
    result_description := rd
    amount := some ((t.amount : Int) : Rat)
    phone_number := some t.phone_number }

/-- The body of the `try` of `POST /check-transaction-status`
(`main.py` lines 332-435).  The boolean records whether the upstream query
path (token fetch onward) was entered. -/
def check_inner (reqId : String) (store : Store) (gw : QueryGateway) (now : Nat) :
    Except PyExc (String × CheckData × Store) × Bool :=
  match Store.get? store reqId with
  | none => (Except.error (PyExc.http 404 "Transaction not found"), false)
  | some t =>
    if t.callback_received then
      (Except.ok ("Transaction status retrieved from database", dbCheckData reqId t, store),
        false)
    else if pyFalsyOptStr t.merchant_request_id then
      (Except.error (PyExc.http 400 "Merchant request ID not found for this transaction"),
        false)
    else
      match gw with
      | QueryGateway.tokenError m => (Except.error (PyExc.http 500 m), true)
      | QueryGateway.netError m => (Except.error (PyExc.reqExc m), true)
      | QueryGateway.reply rc rd =>
        match Store.update? store reqId (queryUpdate rc rd now) with
        | none => (Except.error (PyExc.other "No document to update"), true)
        | some store2 =>
          (Except.ok ("Transaction status retrieved from M-Pesa API",
            queryCheckData reqId (queryCodeToStatus rc) rc rd t, store2), true)

/-- The full outcome of a check-status call: the HTTP-level result, the
store afterwards, and whether the upstream query path was entered. -/
structure CheckOutcome where
  result : HRes CheckData
  store : Store
  queriedUpstream : Bool
deriving DecidableEq

/-- The `POST /check-transaction-status` handler (`main.py` lines 329-450),
including its `except` chain: a `RequestException` becomes a 500
"Failed to communicate ..." and every other exception — including the
handler's own `HTTPException(404/400, ...)` — is re-wrapped into a 500
"An unexpected error occurred: <str(e)>". -/
def check_transaction_status (reqId : String) (store : Store) (gw : QueryGateway)
    (now : Nat) : CheckOutcome :=
  match check_inner reqId store gw now with
  | (Except.ok (msg, d, store2), q) => ⟨HRes.ok msg d, store2, q⟩
  | (Except.error (PyExc.reqExc m), q) =>
    ⟨HRes.httpError 500 ("Failed to communicate with M-Pesa API: " ++ m), store, q⟩
  | (Except.error e, q) =>
    ⟨HRes.httpError 500 ("An unexpected error occurred: " ++ pyExcStr e), store, q⟩

/-- The body of `POST /initiate-stk-push`: a pydantic `STKPushRequest`.
`amount` is a JSON float; the optional fields default as in the source. -/
structure STKPushRequest where
  phone_number : String
  amount : Rat
  account_reference : Option String := some "CompanyXYZ"
  transaction_desc : Option String := some "Payment for services"
deriving DecidableEq

/-- The `data` dictionary of a successful initiate response. -/
structure InitData where
  checkout_request_id : String
  merchant_request_id : Option String
  phone_number : String
  amount : Int
deriving DecidableEq

/-- What the initiate handler observes of its collaborators: password
generation or token fetch raising an `HTTPException(500, ...)`, the push
POST raising a `RequestException`, or a reply JSON with `ResponseCode`,
`CheckoutRequestID`, `MerchantRequestID` and `errorMessage` (each possibly
absent). -/
inductive InitGateway where
  | configError (msg : String)
  | netError (msg : String)
  | reply (responseCode : Option String) (checkoutID : Option String)
      (merchantID : Option String) (errorMessage : Option String)
deriving DecidableEq

/-- The phone-number normalizer `format_phone_number`
(`main.py` lines 127-136), expressed on the character list of the input:
strip non-digits, then `startswith('0')` is `head? = some '0'` and
`startswith('254')` is `take 3 = ['2','5','4']`. -/
def format_phone_number (s : String) : String :=
  let digits := s.data.filter Char.isDigit
  if digits.head? = some '0' then String.mk ('2' :: '5' :: '4' :: digits.tail)
  else if digits.take 3 ≠ ['2', '5', '4'] then String.mk ('2' :: '5' :: '4' :: digits)
  else String.mk digits

/-- Modelled from the spec: the PhoneNumberNormalizer contract of section
4.1, stated in the spec's own words — strips all non-digit characters;
a result starting with "0" has the leading zero replaced by "254"; a result
not starting with "254" has "254" prepended; otherwise the result is left
unchanged.  Used only to compare against `format_phone_number`. -/
def formatPhoneNumberSpec (s : String) : String :=
  let digits := s.data.filter Char.isDigit
  if digits.head? = some '0' then String.mk (['2', '5', '4'] ++ digits.tail)
  else if ¬ (digits.take 3 = ['2', '5', '4']) then String.mk (['2', '5', '4'] ++ digits)
  else String.mk digits

/-- Modelled from the spec: the pure `codeToStatus` table of section 4.3.
Used only to compare against the mappings implemented by the two handlers. -/
def codeToStatus (rc : Int) : String :=
  if rc = 0 then "completed"
  else if rc = 1 then "insufficient_funds"
  else if rc = 1032 then "cancelled"
  else if rc = 1037 then "expired"
  else if rc = 1031 then "cancelled"
  else "failed"

/-- The transaction document created by a successful initiate
(`main.py` lines 199-211). -/
def pendingTransaction (phone : String) (amount : Int) (now : Nat) (cid : String)
    (mid : Option String) (acc : Option String) (desc : Option String) : Transaction :=
  { phone_number := phone
    amount := amount
    timestamp := some now
    checkout_request_id := cid
    status := "pending"
    merchant_request_id := mid
    account_reference := acc
    transaction_desc := desc }

/-- The body of the `try` of `POST /initiate-stk-push`
(`main.py` lines 146-227): format the phone, truncate the amount to an
integer, validate both, call the gateway, and on `ResponseCode == "0"`
create the pending transaction document. -/
def initiate_inner (req : STKPushRequest) (gw : InitGateway) (store : Store)
    (now : Nat) : Except PyExc (String × InitData × Store) :=
  let phone := format_phone_number req.phone_number
  let amount := ratTrunc req.amount
  if ¬ (phone.length = 12 ∧ pyStrIsDigit phone = true) then
    Except.error (PyExc.http 400
      "Invalid phone number format. Use format: 0722000000 or 254722000000")
  else if amount ≤ 0 then
    Except.error (PyExc.http 400 "Amount must be greater than 0")
  else
    match gw with
    | InitGateway.configError m => Except.error (PyExc.http 500 m)
    | InitGateway.netError m => Except.error (PyExc.reqExc m)
    | InitGateway.reply rc cid mid em =>
      if rc = some "0" then
        match cid with
        | none => Except.error (PyExc.other "invalid document path")
        | some c =>
          Except.ok ("STK push request sent successfully",
            ⟨c, mid, phone, amount⟩,
            Store.set store c
              (pendingTransaction phone amount now c mid req.account_reference
                req.transaction_desc))
      else
        Except.error (PyExc.http 400
          ("STK push request failed: " ++ Option.getD em "Unknown error"))

/-- The `POST /initiate-stk-push` handler (`main.py` lines 143-238),
including its `except` chain: a `RequestException` becomes a 500
"Failed to communicate ..." and every other exception — including the
handler's own validation `HTTPException(400, ...)` — is re-wrapped into a
500 "An unexpected error occurred: <str(e)>". -/
def initiate_stk_push (req : STKPushRequest) (gw : InitGateway) (store : Store)
    (now : Nat) : HRes InitData × Store :=
  match initiate_inner req gw store now with
  | Except.ok (msg, d, store2) => (HRes.ok msg d, store2)
  | Except.error (PyExc.reqExc m) =>
    (HRes.httpError 500 ("Failed to communicate with M-Pesa API: " ++ m), store)
  | Except.error e =>
    (HRes.httpError 500 ("An unexpected error occurred: " ++ pyExcStr e), store)

/-- The terminal fields of a transaction record named by the idempotence
property: status, result code/description, the four metadata fields, and
the callback flag. -/
structure TerminalFields where
  status : String
  result_code : Option Int
  result_description : Option String
  confirmed_amount : Option Rat
  mpesa_receipt_number : Option String
  transaction_date : Option String
  confirmed_phone_number : Option String
  callback_received : Bool
deriving DecidableEq

/-- Projection of a transaction record onto its terminal fields. -/
def terminalFields (t : Transaction) : TerminalFields :=
  ⟨t.status, t.result_code, t.result_description, t.confirmed_amount,
    t.mpesa_receipt_number, t.transaction_date, t.confirmed_phone_number,
    t.callback_received⟩

/-- A freshly initiated (pending) transaction used as a concrete test
fixture. -/
def tPending : Transaction :=
  { phone_number := "254722000000"
    amount := 100
    checkout_request_id := "id1"
    merchant_request_id := some "m1"
    account_reference := some "CompanyXYZ"
    transaction_desc := some "Payment for services"
    timestamp := some 0 }

/-- A one-document store holding `tPending` at key "id1". -/
def store1 : Store := [("id1", tPending)]

/-- A pending transaction whose document carries no merchant request id. -/
def tNoMerchant : Transaction :=
  { phone_number := "254722000001"
    amount := 50
    checkout_request_id := "idq"
    timestamp := some 0 }

/-- A one-document store holding `tNoMerchant` at key "idq". -/
def storeNM : Store := [("idq", tNoMerchant)]

/-- A transaction whose callback has already been applied. -/
def tDone : Transaction :=
  { tPending with
    checkout_request_id := "idc"
    callback_received := true
    status := "completed"
    result_code := some 0
    result_description := some "ok"
    confirmed_amount := some 100
    mpesa_receipt_number := some "ABC123" }

/-- A one-document store holding `tDone` at key "idc". -/
def storeDone : Store := [("idc", tDone)]

/-- A user-cancellation callback carrying result code 1031 for "id1". -/
def cb1031 : StkCallback :=
  { checkoutRequestID := some "id1"
    resultCode := some 1031
    resultDesc := some "Request cancelled by user" }

/-- A user-cancellation callback carrying result code 1032 for "id1". -/
def cb1032 : StkCallback :=
  { checkoutRequestID := some "id1"
    resultCode := some 1032
    resultDesc := some "Request cancelled by user" }

/-- A successful callback for "id1" with the metadata of the spec's
scenario. -/
def cbSuccess : StkCallback :=
  { checkoutRequestID := some "id1"
    resultCode := some 0
    resultDesc := some "The service request is processed successfully."
    callbackMetadata := some
      [⟨"Amount", MVal.int 100⟩,
       ⟨"MpesaReceiptNumber", MVal.str "ABC123"⟩,
       ⟨"TransactionDate", MVal.int 20251012093000⟩,
       ⟨"PhoneNumber", MVal.int 254722000000⟩] }

/-- A callback payload with no checkout id at all. -/
def cbMissingId : StkCallback := {}

/-- A successful callback for `id` carrying the four standard metadata
items with generic values: an integer Amount `a`, a string receipt `r`, an
integer TransactionDate `d` and an integer PhoneNumber `p`. -/
def successCallback (id : String) (rd : Option String) (a : Int) (r : String)
    (d p : Int) : StkCallback :=
  { checkoutRequestID := some id
    resultCode := some 0
    resultDesc := rd
    callbackMetadata := some
      [⟨"Amount", MVal.int a⟩,
       ⟨"MpesaReceiptNumber", MVal.str r⟩,
       ⟨"TransactionDate", MVal.int d⟩,
       ⟨"PhoneNumber", MVal.int p⟩] }

/-- The update dictionary the callback handler computes for
`successCallback`. -/
def successUpdate (rd : Option String) (a : Int) (r : String) (d p : Int) :
    CallbackUpdate :=
  { result_code := some 0
    result_description := rd
    status := "completed"
    confirmed_amount := some ((a : Int) : Rat)
    mpesa_receipt_number := some r
    transaction_date := some (toString d)
    confirmed_phone_number := some (toString p) }

/-- A well-formed initiate request (10-digit local phone, amount 100). -/
def reqW : STKPushRequest :=
  { phone_number := "0722000000", amount := 100 }

/-- An initiate request whose phone digits cannot normalize to 12 digits. -/
def reqBadPhone : STKPushRequest :=
  { phone_number := "12345", amount := 100 }

/-- The record `initiate_stk_push reqW` creates on a successful push reply
with checkout id "cid1" and merchant id "mid1" at time 0. -/
def initTW : Transaction :=
  pendingTransaction "254722000000" 100 0 "cid1" (some "mid1")
    (some "CompanyXYZ") (some "Payment for services")

theorem store_update?_eq_none_iff (s : Store) (k : String)
    (f : Transaction → Transaction) :
    Store.update? s k f = none ↔ Store.get? s k = none := by
  induction s with
  | nil => simp [Store.update?, Store.get?]
  | cons hd tl ih =>
    obtain ⟨k1, t⟩ := hd
    by_cases h : k1 = k <;>
      simp [Store.update?, Store.get?, h, ih, Option.map_eq_none']

theorem store_get?_update? (s : Store) (k : String) (f : Transaction → Transaction) :
    ∀ s2, Store.update? s k f = some s2 →
      ∀ k2, Store.get? s2 k2 =
        if k = k2 then (Store.get? s k2).map f else Store.get? s k2 := by
  induction s with
  | nil => intro s2 h; simp [Store.update?] at h
  | cons hd tl ih =>
    obtain ⟨k1, t⟩ := hd
    intro s2 h k2
    by_cases hk : k1 = k
    · subst hk
      simp [Store.update?] at h
      subst h
      by_cases h2 : k1 = k2
      · subst h2
        simp [Store.get?]
      · simp [Store.get?, h2, fun hh : k1 = k2 => h2 hh]
    · simp only [Store.update?, if_neg hk] at h
      obtain ⟨r2, hr2, rfl⟩ := Option.map_eq_some'.mp h
      by_cases h2 : k1 = k2
      · subst h2
        have hkk2 : ¬ k = k1 := fun hh => hk hh.symm
        simp [Store.get?, hkk2]
      · simp [Store.get?, h2, ih r2 hr2 k2]

theorem store_get?_set (s : Store) (k : String) (t : Transaction) (k2 : String) :
    Store.get? (Store.set s k t) k2 = if k = k2 then some t else Store.get? s k2 := by
  induction s with
  | nil => simp [Store.set, Store.get?]
  | cons hd tl ih =>
    obtain ⟨k1, t1⟩ := hd
    by_cases hk : k1 = k
    · subst hk
      by_cases h2 : k1 = k2 <;> simp [Store.set, Store.get?, h2]
    · by_cases h2 : k1 = k2
      · subst h2
        have hkk2 : ¬ k = k1 := fun hh => hk hh.symm
        simp [Store.set, Store.get?, hk, hkk2]
      · simp [Store.set, Store.get?, hk, h2, ih]

example : ratTrunc (100 : Rat) = 100 := by decide
example : ratTrunc (mkRat 201 2) = 100 := by decide
example : ratTrunc (mkRat (-1) 2) = 0 := by decide
example : format_phone_number "0722000000" = "254722000000" := by decide
example : format_phone_number " +254 722-000000" = "254722000000" := rfl
example : format_phone_number "722000000" = "254722000000" := rfl
example :
    (Store.get? (mpesa_callback cb1031 store1 7).2 "id1").map Transaction.status =
      some "failed" := by decide
example :
    (Store.get? (mpesa_callback cbSuccess store1 7).2 "id1").map terminalFields =
      some ⟨"completed", some 0,
        some "The service request is processed successfully.", some 100,
        some "ABC123", some "20251012093000", some "254722000000", true⟩ := by decide
example :
    check_transaction_status "nope" [] (QueryGateway.reply (some 0) none) 0 =
      ⟨HRes.httpError 500 "An unexpected error occurred: 404: Transaction not found",
        [], false⟩ := by decide

theorem mergeOpt_idem {α : Type} (a b : Option α) :
    mergeOpt a (mergeOpt a b) = mergeOpt a b := by
  cases a <;> rfl

theorem store_update?_isSome (s : Store) (k : String) (f : Transaction → Transaction)
    (t : Transaction) (h : Store.get? s k = some t) :
    ∃ s2, Store.update? s k f = some s2 := by
  rcases ho : Store.update? s k f with _ | s2
  · exfalso
    rw [store_update?_eq_none_iff] at ho
    rw [ho] at h
    exact Option.noConfusion h
  · exact ⟨s2, rfl⟩

theorem mpesa_callback_success_eq (cb : StkCallback) (store : Store) (now : Nat)
    (id : String) (u : CallbackUpdate) (s2 : Store)
    (hid : cb.checkoutRequestID = some id) (hne : id ≠ "")
    (hu : buildCallbackUpdate cb = some u)
    (hs : Store.update? store id (fun t => applyCallbackUpdate t u cb now) = some s2) :
    mpesa_callback cb store now = (⟨0, "Callback processed successfully"⟩, s2) := by
  simp [mpesa_callback, hid, hne, hu, hs]

theorem buildCallbackUpdate_nonzero (cb : StkCallback) (rc : Int)
    (h : cb.resultCode = some rc) (h0 : rc ≠ 0) :
    buildCallbackUpdate cb =
      some { result_code := some rc, result_description := cb.resultDesc,
             status := callbackFailStatus (some rc) } := by
  simp [buildCallbackUpdate, h, h0]

theorem applyMetaItem_preserves (u : CallbackUpdate) (it : MetaItem)
    (u2 : CallbackUpdate) (h : applyMetaItem u it = some u2) :
    u2.result_code = u.result_code ∧ u2.result_description = u.result_description ∧
      u2.status = u.status := by
  unfold applyMetaItem at h
  split_ifs at h
  · obtain ⟨q, hq, rfl⟩ := Option.map_eq_some'.mp h
    exact ⟨rfl, rfl, rfl⟩
  all_goals
    simp only [Option.some.injEq] at h
  all_goals
    subst h
  all_goals
    exact ⟨rfl, rfl, rfl⟩

theorem foldlM_applyMetaItem_preserves (items : List MetaItem) :
    ∀ u u2, List.foldlM applyMetaItem u items = some u2 →
      u2.result_code = u.result_code ∧ u2.result_description = u.result_description ∧
        u2.status = u.status := by
  induction items with
  | nil =>
    intro u u2 h
    simp [List.foldlM] at h
    subst h
    exact ⟨rfl, rfl, rfl⟩
  | cons it rest ih =>
    intro u u2 h
    rw [List.foldlM_cons] at h
    rcases hm : applyMetaItem u it with _ | u1
    · rw [hm] at h
      exact Option.noConfusion h
    · rw [hm] at h
      have hrest : List.foldlM applyMetaItem u1 rest = some u2 := h
      have h1 := applyMetaItem_preserves u it u1 hm
      have h2 := ih u1 u2 hrest
      exact ⟨h2.1.trans h1.1, (h2.2.1).trans h1.2.1, (h2.2.2).trans h1.2.2⟩

theorem buildCallbackUpdate_fields (cb : StkCallback) (u : CallbackUpdate)
    (h : buildCallbackUpdate cb = some u) :
    u.result_code = cb.resultCode ∧ u.result_description = cb.resultDesc := by
  unfold buildCallbackUpdate at h
  by_cases h0 : cb.resultCode = some 0
  · rw [if_pos h0] at h
    rcases hmeta : cb.callbackMetadata with _ | items
    · rw [hmeta] at h
      simp only [Option.some.injEq] at h
      subst h
      exact ⟨rfl, rfl⟩
    · rw [hmeta] at h
      have := foldlM_applyMetaItem_preserves items _ u h
      exact ⟨this.1, this.2.1⟩
  · rw [if_neg h0] at h
    simp only [Option.some.injEq] at h
    subst h
    exact ⟨rfl, rfl⟩

theorem applyCallbackUpdate_idem (t : Transaction) (u : CallbackUpdate)
    (cb : StkCallback) (n1 n2 : Nat) :
    terminalFields (applyCallbackUpdate (applyCallbackUpdate t u cb n1) u cb n2) =
      terminalFields (applyCallbackUpdate t u cb n1) := by
  simp [terminalFields, applyCallbackUpdate, mergeOpt_idem]

/-- C7: the phone-number normalizer strips all non-digit characters, then
replaces a leading "0" by "254", prepends "254" when the digit string does
not already start with "254", and otherwise returns it unchanged (stated as
equality with `formatPhoneNumberSpec`, the contract written from the spec's
words); consequently a 10-digit input with a leading "0" normalizes to
"254" followed by the remaining 9 digits, and an already-canonical
all-digit "254"-prefixed input is returned unchanged. -/
theorem C7_format_phone_number_follows_spec :
    (∀ s : String, format_phone_number s = formatPhoneNumberSpec s) ∧
    (∀ s : String, (s.data.filter Char.isDigit).length = 10 →
      (s.data.filter Char.isDigit).head? = some '0' →
      format_phone_number s =
        String.mk ('2' :: '5' :: '4' :: (s.data.filter Char.isDigit).tail)) ∧
    (∀ s : String, s.data.all Char.isDigit = true →
      s.data.take 3 = ['2', '5', '4'] →
      format_phone_number s = s) := by
  refine ⟨fun s => rfl, fun s hlen hhead => ?_, fun s hall htake => ?_⟩
  · simp [format_phone_number, hhead]
  · obtain ⟨l⟩ := s
    have hall2 : ∀ a ∈ l, Char.isDigit a = true := List.all_eq_true.mp hall
    have hfil : l.filter Char.isDigit = l := List.filter_eq_self.mpr hall2
    have hh : l.head? = some '2' := by
      cases l with
      | nil => simp at htake
      | cons a r =>
        have : a = '2' := by
          simpa using congrArg List.head? htake
        simp [this]
    show format_phone_number ⟨l⟩ = ⟨l⟩
    simp [format_phone_number, hfil, hh, htake]

/-- C7 witness: the theorem applied at the concrete inputs "0722000000"
(leading-zero case) and "254722000000" (canonical case). -/
theorem C7_witness :
    format_phone_number "0722000000" = "254722000000" ∧
    format_phone_number "254722000000" = "254722000000" := by
  constructor
  · exact (C7_format_phone_number_follows_spec.2.1 "0722000000" (by decide)
      (by decide)).trans (by decide)
  · exact C7_format_phone_number_follows_spec.2.2 "254722000000" (by decide) (by decide)

/-- C1 counterexample: a callback carrying result code 1031 on an existing
record stores status "failed", while the spec's `codeToStatus` table sends
1031 to "cancelled". -/
theorem C1_counterexample :
    (Store.get? (mpesa_callback cb1031 store1 7).2 "id1").map Transaction.status =
      some "failed" ∧
    codeToStatus 1031 = "cancelled" ∧ ("failed" : String) ≠ "cancelled" := by
  decide

/-- C1 (amended): for every callback with a nonzero result code on an
existing record, the stored status follows the callback-path mapping —
1032 to cancelled, 1037 to expired, 1 to insufficient_funds, and every
other nonzero code (including 1031) to failed; the spec's 1031-to-cancelled
row holds only on the poll path. -/
theorem C1_callback_nonzero_status (cb : StkCallback) (store : Store) (now : Nat)
    (id : String) (rc : Int) (t : Transaction)
    (hid : cb.checkoutRequestID = some id) (hne : id ≠ "")
    (hrc : cb.resultCode = some rc) (h0 : rc ≠ 0)
    (ht : Store.get? store id = some t) :
    (Store.get? (mpesa_callback cb store now).2 id).map Transaction.status =
      some (if rc = 1032 then "cancelled" else if rc = 1037 then "expired"
        else if rc = 1 then "insufficient_funds" else "failed") := by
  have hu := buildCallbackUpdate_nonzero cb rc hrc h0
  obtain ⟨s2, hs2⟩ := store_update?_isSome store id
    (fun x => applyCallbackUpdate x
      { result_code := some rc, result_description := cb.resultDesc,
        status := callbackFailStatus (some rc) } cb now) t ht
  rw [mpesa_callback_success_eq cb store now id _ s2 hid hne hu hs2]
  have hget := store_get?_update? store id _ s2 hs2 id
  rw [if_pos rfl] at hget
  simp only [hget, ht, Option.map_some']
  simp [applyCallbackUpdate, callbackFailStatus]

/-- C1 witness: the amended theorem applied to a 1032 callback on the
fixture store, giving stored status "cancelled". -/
theorem C1_witness :
    (Store.get? (mpesa_callback cb1032 store1 3).2 "id1").map Transaction.status =
      some "cancelled" := by
  exact (C1_callback_nonzero_status cb1032 store1 3 "id1" 1032 tPending (by decide)
    (by decide) (by decide) (by decide) (by decide)).trans (by decide)

/-- C5: at the failing input (a check-status request whose id matches no
stored transaction) the handler does NOT fail with the 404 NotFound it
raises internally: the blanket `except Exception` of the handler re-wraps
its own `HTTPException(404, "Transaction not found")` into a generic 500
server fault. -/
theorem C5_unknown_id_generic_fault :
    check_transaction_status "ws_CO_unknown" [] (QueryGateway.reply (some 0) none) 0 =
      ⟨HRes.httpError 500 "An unexpected error occurred: 404: Transaction not found",
        [], false⟩ := by
  decide

/-- C6: at the failing input (an initiate request whose phone number cannot
normalize to 12 digits) the handler does NOT reject with the 400 client
fault it raises internally: the blanket `except Exception` of the handler
re-wraps its own `HTTPException(400, ...)` into a generic 500 server
fault. -/
theorem C6_invalid_phone_generic_fault :
    initiate_stk_push reqBadPhone
        (InitGateway.reply (some "0") (some "c") (some "m") none) [] 0 =
      (HRes.httpError 500
        ("An unexpected error occurred: 400: " ++
          "Invalid phone number format. Use format: 0722000000 or 254722000000"),
        []) := by
  decide

/-- C4: the callback handler is total and always returns a structured
acknowledgment whose ResultCode is 0 or 1; a payload with a missing (or
empty, hence falsy) checkout id is answered with the rejection
acknowledgment ResultCode 1 and no store mutation; and an internal fault
while computing the update (a metadata conversion error) is swallowed into
the failure acknowledgment with the store untouched. -/
theorem C4_callback_always_acks :
    ∀ (cb : StkCallback) (store : Store) (now : Nat),
      ((mpesa_callback cb store now).1.ResultCode = 0 ∨
        (mpesa_callback cb store now).1.ResultCode = 1) ∧
      (pyFalsyOptStr cb.checkoutRequestID = true →
        (mpesa_callback cb store now).1 = ⟨1, "Invalid callback data"⟩ ∧
        (mpesa_callback cb store now).2 = store) ∧
      (∀ id, cb.checkoutRequestID = some id → id ≠ "" →
        buildCallbackUpdate cb = none →
        (mpesa_callback cb store now).1 = ⟨1, "Callback processing failed"⟩ ∧
        (mpesa_callback cb store now).2 = store) := by
  intro cb store now
  refine ⟨?_, ?_, ?_⟩
  · rcases hid : cb.checkoutRequestID with _ | id
    · right
      simp [mpesa_callback, hid]
    · by_cases hne : id = ""
      · right
        subst hne
        simp [mpesa_callback, hid]
      · rcases hu : buildCallbackUpdate cb with _ | u
        · right
          simp [mpesa_callback, hid, hne, hu]
        · rcases hupd : Store.update? store id
              (fun x => applyCallbackUpdate x u cb now) with _ | s2
          · right
            simp [mpesa_callback, hid, hne, hu, hupd]
          · left
            simp [mpesa_callback, hid, hne, hu, hupd]
  · intro hfalsy
    rcases hid : cb.checkoutRequestID with _ | id
    · simp [mpesa_callback, hid]
    · rw [hid] at hfalsy
      have : id = "" := by simpa [pyFalsyOptStr] using hfalsy
      subst this
      simp [mpesa_callback, hid]
  · intro id hid hne hu
    simp [mpesa_callback, hid, hne, hu]

/-- C4 witness: the theorem applied to the payload with no checkout id on
the fixture store. -/
theorem C4_witness :
    (mpesa_callback cbMissingId store1 0).1 = ⟨1, "Invalid callback data"⟩ ∧
    (mpesa_callback cbMissingId store1 0).2 = store1 :=
  (C4_callback_always_acks cbMissingId store1 0).2.1 (by decide)

/-- C10: the callback handler never creates a transaction record: on a
callback whose checkout id matches no stored record the document update
fails, the failure is swallowed into the ResultCode 1 acknowledgment and
the store is unchanged; and for any key absent from the store before a
callback, the key is still absent afterwards. -/
theorem C10_callback_never_creates :
    ∀ (cb : StkCallback) (store : Store) (now : Nat),
      (∀ id, cb.checkoutRequestID = some id → Store.get? store id = none →
        (mpesa_callback cb store now).1.ResultCode = 1 ∧
        (mpesa_callback cb store now).2 = store) ∧
      (∀ k, Store.get? store k = none →
        Store.get? (mpesa_callback cb store now).2 k = none) := by
  intro cb store now
  constructor
  · intro id hid hnone
    by_cases hne : id = ""
    · subst hne
      simp [mpesa_callback, hid]
    · rcases hu : buildCallbackUpdate cb with _ | u
      · simp [mpesa_callback, hid, hne, hu]
      · have hupd : Store.update? store id
            (fun x => applyCallbackUpdate x u cb now) = none :=
          (store_update?_eq_none_iff store id _).mpr hnone
        simp [mpesa_callback, hid, hne, hu, hupd]
  · intro k hk
    rcases hid : cb.checkoutRequestID with _ | id
    · simp [mpesa_callback, hid, hk]
    · by_cases hne : id = ""
      · subst hne
        simp [mpesa_callback, hid, hk]
      · rcases hu : buildCallbackUpdate cb with _ | u
        · simp [mpesa_callback, hid, hne, hu, hk]
        · rcases hupd : Store.update? store id
              (fun x => applyCallbackUpdate x u cb now) with _ | s2
          · simp [mpesa_callback, hid, hne, hu, hupd, hk]
          · have heq : (mpesa_callback cb store now).2 = s2 := by
              simp [mpesa_callback, hid, hne, hu, hupd]
            rw [heq, store_get?_update? store id _ s2 hupd k]
            by_cases hik : id = k
            · subst hik
              simp [hk]
            · simp [hik, hk]

/-- C10 witness: the theorem applied to a callback for "id1" on the empty
store. -/
theorem C10_witness :
    (mpesa_callback cb1031 [] 0).1.ResultCode = 1 ∧
    (mpesa_callback cb1031 [] 0).2 = [] :=
  (C10_callback_never_creates cb1031 [] 0).1 "id1" (by decide) (by decide)

/-- C8: applying the same successful callback twice leaves the terminal
fields (status, result code/description, the four metadata fields and the
callback flag) of every stored record exactly as they are after the first
application: the computed update is a function of the payload alone, so the
second application redoes the same field writes. -/
theorem C8_callback_idempotent (cb : StkCallback) (store : Store) (n1 n2 : Nat)
    (id : String) (h0 : cb.resultCode = some 0) :
    (Store.get? (mpesa_callback cb (mpesa_callback cb store n1).2 n2).2 id).map
        terminalFields =
      (Store.get? (mpesa_callback cb store n1).2 id).map terminalFields := by
  rcases hid : cb.checkoutRequestID with _ | cid
  · have h2 : (mpesa_callback cb (mpesa_callback cb store n1).2 n2).2 =
        (mpesa_callback cb store n1).2 := by
      simp [mpesa_callback, hid]
    rw [h2]
  · by_cases hne : cid = ""
    · subst hne
      have h2 : (mpesa_callback cb (mpesa_callback cb store n1).2 n2).2 =
          (mpesa_callback cb store n1).2 := by
        simp [mpesa_callback, hid]
      rw [h2]
    · rcases hu : buildCallbackUpdate cb with _ | u
      · have h2 : (mpesa_callback cb (mpesa_callback cb store n1).2 n2).2 =
            (mpesa_callback cb store n1).2 := by
          simp [mpesa_callback, hid, hne, hu]
        rw [h2]
      · rcases hupd : Store.update? store cid
            (fun x => applyCallbackUpdate x u cb n1) with _ | s1
        · have h1 : (mpesa_callback cb store n1).2 = store := by
            simp [mpesa_callback, hid, hne, hu, hupd]
          have hupd2 : Store.update? store cid
              (fun x => applyCallbackUpdate x u cb n2) = none := by
            rw [store_update?_eq_none_iff] at hupd ⊢
            exact hupd
          have h2 : (mpesa_callback cb store n2).2 = store := by
            simp [mpesa_callback, hid, hne, hu, hupd2]
          rw [h1, h2]
        · have h1 : (mpesa_callback cb store n1).2 = s1 := by
            simp [mpesa_callback, hid, hne, hu, hupd]
          obtain ⟨t, ht⟩ : ∃ t, Store.get? store cid = some t := by
            rcases hg : Store.get? store cid with _ | t
            · exfalso
              rw [← store_update?_eq_none_iff store cid
                (fun x => applyCallbackUpdate x u cb n1)] at hg
              rw [hg] at hupd
              exact Option.noConfusion hupd
            · exact ⟨t, rfl⟩
          have hg1 : Store.get? s1 cid = some (applyCallbackUpdate t u cb n1) := by
            have hx := store_get?_update? store cid _ s1 hupd cid
            rw [if_pos rfl, ht] at hx
            simpa using hx
          obtain ⟨s2, hupd2⟩ := store_update?_isSome s1 cid
            (fun x => applyCallbackUpdate x u cb n2) _ hg1
          have h2 : (mpesa_callback cb s1 n2).2 = s2 := by
            simp [mpesa_callback, hid, hne, hu, hupd2]
          rw [h1, h2]
          have hg2 := store_get?_update? s1 cid _ s2 hupd2 id
          by_cases hik : cid = id
          · subst hik
            rw [hg2, if_pos rfl, hg1]
            simp [applyCallbackUpdate_idem]
          · rw [hg2, if_neg hik]

/-- C8 witness: the theorem applied to the successful fixture callback on
the fixture store at two different times. -/
theorem C8_witness :
    (Store.get? (mpesa_callback cbSuccess (mpesa_callback cbSuccess store1 1).2 2).2
        "id1").map terminalFields =
      (Store.get? (mpesa_callback cbSuccess store1 1).2 "id1").map terminalFields :=
  C8_callback_idempotent cbSuccess store1 1 2 "id1" (by decide)

/-- C9: every record the initiate handler adds to the store carries a
positive integral amount, namely the request's float amount truncated to an
integer before validation; any key of the resulting store either held the
same record before the call or holds the newly created record, whose amount
is positive. -/
theorem C9_amount_positive (req : STKPushRequest) (gw : InitGateway) (store : Store)
    (now : Nat) (k : String) (t : Transaction)
    (h : Store.get? (initiate_stk_push req gw store now).2 k = some t) :
    Store.get? store k = some t ∨ (0 < t.amount ∧ t.amount = ratTrunc req.amount) := by
  by_cases h1 : (format_phone_number req.phone_number).length = 12 ∧
      pyStrIsDigit (format_phone_number req.phone_number) = true
  · by_cases h2 : ratTrunc req.amount ≤ 0
    · left
      have hst : (initiate_stk_push req gw store now).2 = store := by
        simp [initiate_stk_push, initiate_inner, h1, h2]
      rwa [hst] at h
    · cases gw with
      | configError m =>
        left
        have hst : (initiate_stk_push req (InitGateway.configError m) store now).2 =
            store := by
          simp [initiate_stk_push, initiate_inner, h1, h2]
        rwa [hst] at h
      | netError m =>
        left
        have hst : (initiate_stk_push req (InitGateway.netError m) store now).2 =
            store := by
          simp [initiate_stk_push, initiate_inner, h1, h2]
        rwa [hst] at h
      | reply rc cid mid em =>
        by_cases h3 : rc = some "0"
        · cases cid with
          | none =>
            left
            have hst : (initiate_stk_push req (InitGateway.reply rc none mid em)
                store now).2 = store := by
              simp [initiate_stk_push, initiate_inner, h1, h2, h3]
            rwa [hst] at h
          | some c =>
            have hst : (initiate_stk_push req (InitGateway.reply rc (some c) mid em)
                store now).2 =
                Store.set store c
                  (pendingTransaction (format_phone_number req.phone_number)
                    (ratTrunc req.amount) now c mid req.account_reference
                    req.transaction_desc) := by
              simp [initiate_stk_push, initiate_inner, h1, h2, h3]
            rw [hst, store_get?_set] at h
            by_cases hck : c = k
            · rw [if_pos hck] at h
              right
              have hPt : pendingTransaction (format_phone_number req.phone_number)
                  (ratTrunc req.amount) now c mid req.account_reference
                  req.transaction_desc = t := by
                injection h
              rw [← hPt]
              refine ⟨?_, rfl⟩
              simp only [pendingTransaction]
              omega
            · rw [if_neg hck] at h
              left
              exact h
        · left
          have hst : (initiate_stk_push req (InitGateway.reply rc cid mid em)
              store now).2 = store := by
            simp [initiate_stk_push, initiate_inner, h1, h2, h3]
          rwa [hst] at h
  · left
    have hst : (initiate_stk_push req gw store now).2 = store := by
      simp [initiate_stk_push, initiate_inner, h1]
    rwa [hst] at h

/-- C9 witness: the theorem applied to a well-formed initiate request on
the empty store with a successful push reply. -/
theorem C9_witness :
    Store.get? ([] : Store) "cid1" = some initTW ∨
      (0 < initTW.amount ∧ initTW.amount = ratTrunc reqW.amount) :=
  C9_amount_positive reqW
    (InitGateway.reply (some "0") (some "cid1") (some "mid1") none) [] 0 "cid1"
    initTW (by decide)

/-- C2 (amended): the status-query mapping agrees with the spec's
`codeToStatus` table; on an existing record with `callback_received` true
the handler returns the stored status from the database without entering
the upstream query path and without touching the store; on an existing
record with `callback_received` false the handler first requires a
non-empty `merchant_request_id` — when it is missing it errors without
querying upstream or persisting anything — and otherwise queries upstream,
maps the returned result code through `codeToStatus`, and persists
`query_result_code`, `query_result_description`, `status` and
`last_queried` on the record. -/
theorem C2_check_status_paths :
    (∀ n : Int, queryCodeToStatus (some n) = codeToStatus n) ∧
    (∀ (reqId : String) (store : Store) (gw : QueryGateway) (now : Nat)
        (t : Transaction),
      Store.get? store reqId = some t → t.callback_received = true →
      check_transaction_status reqId store gw now =
        ⟨HRes.ok "Transaction status retrieved from database" (dbCheckData reqId t),
          store, false⟩) ∧
    (∀ (reqId : String) (store : Store) (gw : QueryGateway) (now : Nat)
        (t : Transaction),
      Store.get? store reqId = some t → t.callback_received = false →
      pyFalsyOptStr t.merchant_request_id = true →
      (check_transaction_status reqId store gw now).queriedUpstream = false ∧
      (check_transaction_status reqId store gw now).store = store) ∧
    (∀ (reqId : String) (store : Store) (now : Nat) (t : Transaction)
        (rc : Option Int) (rd : Option String),
      Store.get? store reqId = some t → t.callback_received = false →
      pyFalsyOptStr t.merchant_request_id = false →
      (check_transaction_status reqId store (QueryGateway.reply rc rd)
          now).queriedUpstream = true ∧
      (Store.get?
          (check_transaction_status reqId store (QueryGateway.reply rc rd) now).store
          reqId).map
        (fun u => (u.query_result_code, u.query_result_description, u.status,
          u.last_queried)) = some (rc, rd, queryCodeToStatus rc, some now)) := by
  refine ⟨?_, ?_, ?_, ?_⟩
  · intro n
    simp only [queryCodeToStatus, codeToStatus, Option.some.injEq]
    split_ifs <;> simp_all
  · intro reqId store gw now t ht hcb
    simp [check_transaction_status, check_inner, ht, hcb]
  · intro reqId store gw now t ht hcb hm
    simp [check_transaction_status, check_inner, ht, hcb, hm]
  · intro reqId store now t rc rd ht hcb hm
    obtain ⟨s2, hs2⟩ := store_update?_isSome store reqId (queryUpdate rc rd now) t ht
    have hout : check_transaction_status reqId store (QueryGateway.reply rc rd) now =
        ⟨HRes.ok "Transaction status retrieved from M-Pesa API"
          (queryCheckData reqId (queryCodeToStatus rc) rc rd t), s2, true⟩ := by
      simp [check_transaction_status, check_inner, ht, hcb, hm, hs2]
    rw [hout]
    refine ⟨rfl, ?_⟩
    have hg := store_get?_update? store reqId _ s2 hs2 reqId
    rw [if_pos rfl, ht] at hg
    simp only [Option.map_some'] at hg
    simp [hg, queryUpdate]

/-- C2 witness: the theorem's database branch applied to the fixture record
with `callback_received` true — the stored status is returned and the
upstream reply is never consulted. -/
theorem C2_witness :
    check_transaction_status "idc" storeDone (QueryGateway.reply (some 9999) none) 11 =
      ⟨HRes.ok "Transaction status retrieved from database" (dbCheckData "idc" tDone),
        storeDone, false⟩ :=
  C2_check_status_paths.2.1 "idc" storeDone (QueryGateway.reply (some 9999) none) 11
    tDone (by decide) (by decide)

/-- C2 counterexample: a check-status call on an existing record that has
not received a callback but lacks a merchant_request_id does NOT query
upstream and persists nothing — it fails with a wrapped error — refuting
the claim that every such call queries upstream and persists the query
result. -/
theorem C2_counterexample :
    (check_transaction_status "idq" storeNM
        (QueryGateway.reply (some 0) (some "ok")) 5).queriedUpstream = false ∧
    (check_transaction_status "idq" storeNM
        (QueryGateway.reply (some 0) (some "ok")) 5).store = storeNM ∧
    (check_transaction_status "idq" storeNM
        (QueryGateway.reply (some 0) (some "ok")) 5).result =
      HRes.httpError 500
        ("An unexpected error occurred: 400: " ++
          "Merchant request ID not found for this transaction") := by
  decide

/-- C3: a callback carrying a checkout id that the handler acknowledges
with success always leaves the record with `callback_received` true, the
payload's result code and description, and the raw payload stored; and a
successful-result callback with the four standard metadata items
additionally sets status "completed", stores Amount as a floating value in
`confirmed_amount`, MpesaReceiptNumber and TransactionDate as strings, and
PhoneNumber as the integer-string form of its numeric value. -/
theorem C3_callback_updates_record :
    (∀ (cb : StkCallback) (store : Store) (now : Nat) (id : String)
        (t2 : Transaction),
      cb.checkoutRequestID = some id →
      (mpesa_callback cb store now).1.ResultCode = 0 →
      Store.get? (mpesa_callback cb store now).2 id = some t2 →
      t2.callback_received = true ∧ t2.result_code = cb.resultCode ∧
        t2.result_description = cb.resultDesc ∧ t2.raw_callback = some cb) ∧
    (∀ (store : Store) (now : Nat) (id : String) (t : Transaction)
        (rd : Option String) (a d p : Int) (r : String),
      Store.get? store id = some t → id ≠ "" →
      (Store.get? (mpesa_callback (successCallback id rd a r d p) store now).2
          id).map
        (fun x => (x.status, x.confirmed_amount, x.mpesa_receipt_number,
          x.transaction_date, x.confirmed_phone_number)) =
        some ("completed", some ((a : Int) : Rat), some r, some (toString d),
          some (toString p))) := by
  constructor
  · intro cb store now id t2 hid hack hget
    by_cases hne : id = ""
    · subst hne
      simp [mpesa_callback, hid] at hack
    · rcases hu : buildCallbackUpdate cb with _ | u
      · simp [mpesa_callback, hid, hne, hu] at hack
      · rcases hupd : Store.update? store id
            (fun x => applyCallbackUpdate x u cb now) with _ | s2
        · simp [mpesa_callback, hid, hne, hu, hupd] at hack
        · have h2 : (mpesa_callback cb store now).2 = s2 := by
            simp [mpesa_callback, hid, hne, hu, hupd]
          rw [h2] at hget
          have hg := store_get?_update? store id _ s2 hupd id
          rw [if_pos rfl] at hg
          rw [hg] at hget
          obtain ⟨t, ht, hft⟩ := Option.map_eq_some'.mp hget
          have hbf := buildCallbackUpdate_fields cb u hu
          subst hft
          exact ⟨rfl, hbf.1, hbf.2, rfl⟩
  · intro store now id t rd a d p r ht hne
    have hu : buildCallbackUpdate (successCallback id rd a r d p) =
        some (successUpdate rd a r d p) := rfl
    obtain ⟨s2, hs2⟩ := store_update?_isSome store id
      (fun x => applyCallbackUpdate x (successUpdate rd a r d p)
        (successCallback id rd a r d p) now) t ht
    rw [mpesa_callback_success_eq (successCallback id rd a r d p) store now id
      (successUpdate rd a r d p) s2 rfl hne hu hs2]
    have hg := store_get?_update? store id _ s2 hs2 id
    rw [if_pos rfl, ht] at hg
    simp only [Option.map_some'] at hg
    rw [hg]
    simp [applyCallbackUpdate, successUpdate, mergeOpt]

/-- C3 witness: the theorem applied to the spec's scenario — Amount 100,
receipt "ABC123", phone 254722000000 — on the fixture store. -/
theorem C3_witness :
    (Store.get? (mpesa_callback
        (successCallback "id1" (some "ok") 100 "ABC123" 20251012093000 254722000000)
        store1 7).2 "id1").map
      (fun x => (x.status, x.confirmed_amount, x.mpesa_receipt_number,
        x.transaction_date, x.confirmed_phone_number)) =
      some ("completed", some ((100 : Int) : Rat), some "ABC123",
        some (toString (20251012093000 : Int)),
        some (toString (254722000000 : Int))) :=
  C3_callback_updates_record.2 store1 7 "id1" tPending (some "ok") 100
    20251012093000 254722000000 "ABC123" (by decide) (by decide)
